import Mathlib

/-!
Verification of the dsg repository core: the DataHub catalog client
(pagination and entity posting), the SQLite-backed history store, and the
Dataset entity JSON schema.  Each Go function is embedded as a Lean
definition; HTTP and SQLite are replaced by explicit oracles/state.
-/

namespace datahub

/-!
## Pagination (datahub.go, paginateDatasets / GetDatasets)

The HTTP layer is replaced by an oracle: the finite list of decoded
responses the server would return, in order.  Each response is the pair
(entities, scrollId) of the parsed body.  `paginateDatasets` embeds the
post-decode logic of the Go function (lines 78-82): an empty entity list
is returned with an empty scroll id, discarding whatever scroll id the
response carried.
-/

/-- The post-decode step of Go `paginateDatasets`: given the decoded
`entities` and `scrollId` of a response, an empty entity list yields
`([], "")`, discarding the response scroll id; otherwise both are
returned unchanged. -/
def paginateDatasets {α : Type} (entities : List α) (scrollId : String) :
    List α × String :=
  if entities.length = 0 then ([], "")
  else (entities, scrollId)

/-- Embedding of Go `GetDatasets`: consumes server responses in order.
Returns the pages passed to the `page` callback, in order, together with
the callback error that stopped iteration (if any).  The loop breaks when
a page is empty or the returned scroll id is empty; exhausting the
response list ends the run with no further callback. -/
def GetDatasets {α ε : Type} (page : List α → Option ε) :
    List (List α × String) → List (List α) × Option ε
  | [] => ([], none)
  | (ents, sid) :: rest =>
    let r := paginateDatasets ents sid
    if r.1.isEmpty then ([], none)
    else
      match page r.1 with
      | some e => ([r.1], some e)
      | none =>
        if r.2 = "" then ([r.1], none)
        else
          let next := GetDatasets page rest
          (r.1 :: next.1, next.2)

end datahub

namespace datahub

lemma getDatasets_cons_nonempty {α ε : Type} (page : List α → Option ε)
    (ents : List α) (sid : String) (rest : List (List α × String))
    (hne : ents ≠ []) (hok : page ents = none) (hsid : sid ≠ "") :
    GetDatasets page ((ents, sid) :: rest) =
      (ents :: (GetDatasets page rest).1, (GetDatasets page rest).2) := by
  have hlen : ents.length ≠ 0 := by simpa using hne
  simp [GetDatasets, paginateDatasets, hlen, List.isEmpty_iff, hne, hok, hsid]

lemma getDatasets_cons_last {α ε : Type} (page : List α → Option ε)
    (ents : List α) (rest : List (List α × String))
    (hne : ents ≠ []) (hok : page ents = none) :
    GetDatasets page ((ents, "") :: rest) = ([ents], none) := by
  have hlen : ents.length ≠ 0 := by simpa using hne
  simp [GetDatasets, paginateDatasets, hlen, List.isEmpty_iff, hne, hok]

/-- **C1.** Against a server answering with pages `p1, p2, p3` of sizes
`[n, n, 3]` and scroll ids `[c1, c2, ""]` (with `c1, c2` nonempty and
`n > 0`), followed by any further responses, `GetDatasets` invokes the
callback exactly on `[p1, p2, p3]` — three invocations with entity
counts `[n, n, 3]` — and never a fourth time, for any callback that
accepts those pages. -/
theorem C1_pagination_three_pages {α ε : Type} (page : List α → Option ε)
    (p1 p2 p3 : List α) (c1 c2 : String) (n : ℕ)
    (rest : List (List α × String))
    (h1 : p1.length = n) (h2 : p2.length = n) (h3 : p3.length = 3)
    (hn : 0 < n) (hc1 : c1 ≠ "") (hc2 : c2 ≠ "")
    (hcb1 : page p1 = none) (hcb2 : page p2 = none) (hcb3 : page p3 = none) :
    GetDatasets page ((p1, c1) :: (p2, c2) :: (p3, "") :: rest) =
      ([p1, p2, p3], none) ∧
    ((GetDatasets page ((p1, c1) :: (p2, c2) :: (p3, "") :: rest)).1.map
        List.length) = [n, n, 3] := by
  have hne1 : p1 ≠ [] := by
    intro h; rw [h] at h1; simp at h1; omega
  have hne2 : p2 ≠ [] := by
    intro h; rw [h] at h2; simp at h2; omega
  have hne3 : p3 ≠ [] := by
    intro h; rw [h] at h3; simp at h3
  have hrun : GetDatasets page ((p1, c1) :: (p2, c2) :: (p3, "") :: rest) =
      ([p1, p2, p3], none) := by
    rw [getDatasets_cons_nonempty page p1 c1 _ hne1 hcb1 hc1,
        getDatasets_cons_nonempty page p2 c2 _ hne2 hcb2 hc2,
        getDatasets_cons_last page p3 rest hne3 hcb3]
  refine ⟨hrun, ?_⟩
  rw [hrun]
  simp [h1, h2, h3]

/-- Witness for C1 at a concrete run: pages of sizes 2, 2, 3 with
cursors "c1", "c2", "". -/
theorem C1_pagination_three_pages_witness :
    GetDatasets (α := ℕ) (ε := Unit) (fun _ => none)
        (([0, 1], "c1") :: ([2, 3], "c2") :: ([4, 5, 6], "") ::
          [([], "c4")]) =
      ([[0, 1], [2, 3], [4, 5, 6]], none) ∧
    ((GetDatasets (α := ℕ) (ε := Unit) (fun _ => none)
        (([0, 1], "c1") :: ([2, 3], "c2") :: ([4, 5, 6], "") ::
          [([], "c4")])).1.map List.length) = [2, 2, 3] :=
  C1_pagination_three_pages (fun _ => none) [0, 1] [2, 3] [4, 5, 6]
    "c1" "c2" 2 [([], "c4")] rfl rfl rfl (by decide) (by decide) (by decide)
    rfl rfl rfl

/-- **C10.** The pagination loop never passes an empty page to the
callback; a zero-entity response ends iteration before any callback and
without following the rest of the server responses; and
`paginateDatasets` discards the scroll id accompanying a zero-entity
response. -/
theorem C10_no_empty_page {α ε : Type} (page : List α → Option ε)
    (server : List (List α × String)) :
    (∀ p ∈ (GetDatasets page server).1, p ≠ []) ∧
    (∀ (sid : String) (rest : List (List α × String)),
      GetDatasets page (([], sid) :: rest) = ([], none)) ∧
    (∀ sid : String, paginateDatasets ([] : List α) sid = ([], "")) := by
  refine ⟨?_, ?_, ?_⟩
  · induction server with
    | nil => simp [GetDatasets]
    | cons hd tl ih =>
      obtain ⟨ents, sid⟩ := hd
      by_cases hempty : ents.length = 0
      · simp [GetDatasets, paginateDatasets, hempty, List.isEmpty_iff,
          List.length_eq_zero.mp hempty]
      · have hne : ents ≠ [] := by
          intro h; rw [h] at hempty; simp at hempty
        cases hcb : page ents with
        | some e =>
          simp [GetDatasets, paginateDatasets, hempty, List.isEmpty_iff,
            hne, hcb]
        | none =>
          by_cases hsid : sid = ""
          · subst hsid
            simp [GetDatasets, paginateDatasets, hempty, List.isEmpty_iff,
              hne, hcb]
          · intro p hp
            rw [getDatasets_cons_nonempty page ents sid tl hne hcb hsid]
              at hp
            rcases List.mem_cons.mp hp with h | h
            · subst h; exact hne
            · exact ih p h
  · intro sid rest
    simp [GetDatasets, paginateDatasets, List.isEmpty_iff]
  · intro sid
    simp [paginateDatasets]

/-- Witness for C10 at a concrete server: a run whose pages are all
nonempty, a zero-entity response that stops iteration, and the discarded
scroll id. -/
theorem C10_no_empty_page_witness :
    (∀ p ∈ (GetDatasets (α := ℕ) (ε := Unit) (fun _ => none)
        [([7], "a"), ([], "b")]).1, p ≠ []) ∧
    (∀ (sid : String) (rest : List (List ℕ × String)),
      GetDatasets (ε := Unit) (fun _ => none) (([], sid) :: rest) =
        ([], none)) ∧
    (∀ sid : String, paginateDatasets ([] : List ℕ) sid = ([], "")) :=
  C10_no_empty_page (fun _ => none) [([7], "a"), ([], "b")]

end datahub

namespace datahub

/-!
## Entity posting (datahub.go, PostEntity / postSingleEntity)

The HTTP layer is an oracle `server : String → Option String` mapping a
request body to `none` (2xx success) or `some cause` (transport failure
or non-2xx status).  `PostEntity` returns the list of request bodies it
issued, in order, together with its result.

`parseRawMessageArray` embeds the structural behaviour of Go
`json.Unmarshal` into `[]json.RawMessage` (standard library, external to
the repository): it splits a JSON array into the raw text of its
top-level elements, respecting nesting and string escapes; per-element
syntax validation is not modelled.
-/

/-- Embedding of Go `strings.TrimSpace`: removes leading and trailing
whitespace characters. -/
def trimSpace (s : String) : String :=
  String.mk
    (((s.data.dropWhile Char.isWhitespace).reverse.dropWhile
      Char.isWhitespace).reverse)

/-- Embedding of Go `strings.HasPrefix`. -/
def hasPrefixB (s p : String) : Bool :=
  p.data.isPrefixOf s.data

/-- Embedding of Go `strings.HasSuffix`. -/
def hasSuffixB (s p : String) : Bool :=
  p.data.isSuffixOf s.data

/-- Trim of the raw characters accumulated for one array element. -/
def finishElem (cur : List Char) : String :=
  trimSpace (String.mk cur.reverse)

/-- Fuel-indexed scanner splitting the contents of a JSON array (the
text after the opening bracket) into the raw text of its top-level
elements.  `depth` counts open brackets/braces, `inStr`/`esc` track
string literals, `cur` is the current element reversed, `acc` the
finished elements reversed. -/
def scanElems : Nat → List Char → Nat → Bool → Bool → List Char →
    List String → Option (List String)
  | 0, _, _, _, _, _, _ => none
  | _ + 1, [], _, _, _, _, _ => none
  | fuel + 1, c :: rest, depth, inStr, esc, cur, acc =>
    if inStr then
      if esc then scanElems fuel rest depth true false (c :: cur) acc
      else if c = '\\' then scanElems fuel rest depth true true (c :: cur) acc
      else if c = '"' then scanElems fuel rest depth false false (c :: cur) acc
      else scanElems fuel rest depth true false (c :: cur) acc
    else if c = '"' then scanElems fuel rest depth true false (c :: cur) acc
    else if c = '[' || c = Char.ofNat 123 then
      scanElems fuel rest (depth + 1) false false (c :: cur) acc
    else if c = ']' && depth = 0 then
      if rest.all Char.isWhitespace then
        if finishElem cur = "" then
          if acc = [] then some [] else none
        else some (acc.reverse ++ [finishElem cur])
      else none
    else if c = ']' || c = Char.ofNat 125 then
      if depth = 0 then none
      else scanElems fuel rest (depth - 1) false false (c :: cur) acc
    else if c = ',' && depth = 0 then
      if finishElem cur = "" then none
      else scanElems fuel rest 0 false false [] (finishElem cur :: acc)
    else scanElems fuel rest depth false false (c :: cur) acc

/-- Splits a JSON array string into the raw text of its elements;
`none` when the input is not an array. -/
def parseRawMessageArray (s : String) : Option (List String) :=
  match s.data with
  | '[' :: rest => scanElems (rest.length + 1) rest 0 false false [] []
  | _ => none

/-- Errors of `PostEntity`: the payload is not a parseable JSON array,
or posting element number `index` (1-based, as reported by the Go code)
failed with the given cause. -/
inductive PostError : Type
  | malformedPayload : PostError
  | postFailed (index : Nat) (cause : String) : PostError
deriving DecidableEq

/-- Embedding of Go `postSingleEntity`: wraps the payload in a
single-element array and sends it; returns the body issued and the
server outcome. -/
def postSingleEntity (server : String → Option String) (payload : String) :
    String × Option String :=
  ("[" ++ payload ++ "]", server ("[" ++ payload ++ "]"))

/-- The posting loop of Go `PostEntity`: posts each element in order,
stopping at the first failure; returns the bodies issued and, on
failure, the 1-based element number with the cause. -/
def postEntityLoop (server : String → Option String) :
    List String → Nat → List String × Option (Nat × String)
  | [], _ => ([], none)
  | d :: rest, i =>
    let r := postSingleEntity server d
    match r.2 with
    | some e => ([r.1], some (i + 1, e))
    | none =>
      let next := postEntityLoop server rest (i + 1)
      (r.1 :: next.1, next.2)

/-- Embedding of Go `PostEntity`: trims the payload, requires it to look
like a JSON array, splits it, and posts each element individually.
Returns the request bodies issued and the result (count on success). -/
def PostEntity (server : String → Option String) (payload : String) :
    List String × Except PostError Nat :=
  let trimmedPayload := trimSpace payload
  if hasPrefixB trimmedPayload "[" && hasSuffixB trimmedPayload "]" then
    match parseRawMessageArray trimmedPayload with
    | none => ([], .error .malformedPayload)
    | some datasets =>
      match postEntityLoop server datasets 0 with
      | (reqs, some (idx, cause)) => (reqs, .error (.postFailed idx cause))
      | (reqs, none) => (reqs, .ok datasets.length)
  else ([], .error .malformedPayload)

lemma postEntityLoop_all_ok (server : String → Option String)
    (ds : List String) (i : Nat)
    (h : ∀ d ∈ ds, server ("[" ++ d ++ "]") = none) :
    postEntityLoop server ds i =
      (ds.map (fun d => "[" ++ d ++ "]"), none) := by
  induction ds generalizing i with
  | nil => simp [postEntityLoop]
  | cons d rest ih =>
    have hd : server ("[" ++ d ++ "]") = none := h d (by simp)
    have hrest : ∀ e ∈ rest, server ("[" ++ e ++ "]") = none := fun e he =>
      h e (by simp [he])
    simp [postEntityLoop, postSingleEntity, hd, ih (i + 1) hrest]

lemma postEntityLoop_fails (server : String → Option String)
    (pre post : List String) (d cause : String) (i : Nat)
    (hok : ∀ e ∈ pre, server ("[" ++ e ++ "]") = none)
    (hfail : server ("[" ++ d ++ "]") = some cause) :
    postEntityLoop server (pre ++ d :: post) i =
      ((pre ++ [d]).map (fun e => "[" ++ e ++ "]"),
        some (i + pre.length + 1, cause)) := by
  induction pre generalizing i with
  | nil => simp [postEntityLoop, postSingleEntity, hfail]
  | cons e rest ih =>
    have he : server ("[" ++ e ++ "]") = none := hok e (by simp)
    have hrest : ∀ x ∈ rest, server ("[" ++ x ++ "]") = none := fun x hx =>
      hok x (by simp [hx])
    have hrec := ih (i + 1) hrest
    simp only [List.cons_append, postEntityLoop, postSingleEntity, he]
    simp only [List.append_eq]
    rw [hrec]
    simp only [List.map_cons, List.map_append, List.map_nil, Prod.mk.injEq,
      Option.some.injEq, List.length_cons, List.cons_append, true_and,
      and_true, List.nil_append]
    omega

/-- **C2.** When the trimmed payload is a JSON array splitting into `n`
elements and the server accepts each, `PostEntity` issues exactly `n`
requests, one per element in order, each element wrapped in its own
single-element array, and returns `n`. -/
theorem C2_post_array (server : String → Option String) (payload : String)
    (datasets : List String) (n : Nat)
    (hpre : hasPrefixB (trimSpace payload) "[")
    (hsuf : hasSuffixB (trimSpace payload) "]")
    (hparse : parseRawMessageArray (trimSpace payload) = some datasets)
    (hlen : datasets.length = n)
    (hsrv : ∀ d ∈ datasets, server ("[" ++ d ++ "]") = none) :
    PostEntity server payload =
      (datasets.map (fun d => "[" ++ d ++ "]"), .ok n) ∧
    (PostEntity server payload).1.length = n := by
  have hloop := postEntityLoop_all_ok server datasets 0 hsrv
  have hrun : PostEntity server payload =
      (datasets.map (fun d => "[" ++ d ++ "]"), .ok n) := by
    simp only [PostEntity, hpre, hsuf, Bool.and_self, if_true, hparse,
      hloop, ← hlen]
  exact ⟨hrun, by rw [hrun]; simp [hlen]⟩

/-- Witness for C2 on the payload "[1, 2, 3]" with an all-accepting
server. -/
theorem C2_post_array_witness :
    PostEntity (fun _ => none) "[1, 2, 3]" =
      (["[1]", "[2]", "[3]"], .ok 3) ∧
    (PostEntity (fun _ => none) "[1, 2, 3]").1.length = 3 := by
  have h := C2_post_array (fun _ => none) "[1, 2, 3]" ["1", "2", "3"] 3
    (by decide) (by decide) (by decide) (by decide) (by decide)
  simpa using h

/-- **C3.** When the payload is not recognizably a JSON array — the
trimmed payload lacks the bracket prefix or suffix, or fails to split —
`PostEntity` fails with the malformed-payload error and issues no
request. -/
theorem C3_post_non_array (server : String → Option String)
    (payload : String)
    (h : hasPrefixB (trimSpace payload) "[" = false ∨
      hasSuffixB (trimSpace payload) "]" = false ∨
      parseRawMessageArray (trimSpace payload) = none) :
    PostEntity server payload = ([], .error .malformedPayload) := by
  rcases h with h | h | h
  · simp [PostEntity, h]
  · simp [PostEntity, h]
  · by_cases hb : hasPrefixB (trimSpace payload) "[" &&
      hasSuffixB (trimSpace payload) "]"
    · simp [PostEntity, hb, h]
    · simp [PostEntity, hb]

/-- Witness for C3 on the bare object payload `\x7b"a":1\x7d`. -/
theorem C3_post_non_array_witness :
    PostEntity (fun _ => none) "\x7b\"a\":1\x7d" =
      ([], .error .malformedPayload) :=
  C3_post_non_array (fun _ => none) "\x7b\"a\":1\x7d"
    (Or.inl (by decide))

/-- **C4.** If the server rejects the element at 0-based index
`pre.length` (the first failing element), `PostEntity` fails with an
error carrying that element's 1-based number and the underlying cause,
and the bodies issued are exactly those for the elements up to and
including the failing one — none after it. -/
theorem C4_post_fail_fast (server : String → Option String)
    (payload : String) (pre post : List String) (d cause : String)
    (hpre : hasPrefixB (trimSpace payload) "[")
    (hsuf : hasSuffixB (trimSpace payload) "]")
    (hparse : parseRawMessageArray (trimSpace payload) = some (pre ++ d :: post))
    (hok : ∀ e ∈ pre, server ("[" ++ e ++ "]") = none)
    (hfail : server ("[" ++ d ++ "]") = some cause) :
    PostEntity server payload =
      ((pre ++ [d]).map (fun e => "[" ++ e ++ "]"),
        .error (.postFailed (pre.length + 1) cause)) := by
  have hloop := postEntityLoop_fails server pre post d cause 0 hok hfail
  simp only [PostEntity, hpre, hsuf, Bool.and_self, if_true, hparse, hloop,
    Nat.zero_add]

/-- Witness for C4: payload "[1,2,3]" against a server rejecting the
body "[2]"; only "[1]" and "[2]" are posted and the error reports
element number 2. -/
theorem C4_post_fail_fast_witness :
    PostEntity (fun b => if b = "[2]" then some "boom" else none)
        "[1,2,3]" =
      (["[1]", "[2]"], .error (.postFailed 2 "boom")) := by
  have h := C4_post_fail_fast
    (fun b => if b = "[2]" then some "boom" else none) "[1,2,3]"
    ["1"] ["3"] "2" "boom" (by decide) (by decide) (by decide)
    (by decide) (by decide)
  simpa using h

end datahub

namespace storage

/-!
## History store (storage package, SQLiteStorage)

The SQLite database is embedded as explicit state: the rows of the single
`responses` table plus the AUTOINCREMENT sequence value.  `time.Time` is
a natural number of time units; its zero value is `0`.  The statement
`ORDER BY created_at DESC` is modelled as a stable descending sort.
-/

/-- The Go `Response` struct returned to callers (field for field). -/
structure Response where
  id : Int
  prompt : String
  response : String
  schemaName : String
  schemaURN : String
  createdAt : Nat
  datasetName : String
deriving DecidableEq

/-- A row of the `responses` table, in column order. -/
structure Row where
  id : Int
  prompt : String
  response : String
  schemaName : String
  schemaURN : String
  datasetName : String
  createdAt : Nat
deriving DecidableEq

/-- The database state: table rows in insertion order, plus the
AUTOINCREMENT sequence (the next id to assign, never reused even after
deletes). -/
structure SQLiteStorage where
  rows : List Row
  nextId : Int
deriving DecidableEq

/-- Embedding of `NewSQLiteStorage`: empty table, id sequence at 1. -/
def NewSQLiteStorage : SQLiteStorage := ⟨[], 1⟩

/-- Invariant of every store reachable from `NewSQLiteStorage`: all row
ids are below the sequence value. -/
def WF (s : SQLiteStorage) : Prop := ∀ r ∈ s.rows, r.id < s.nextId

/-- Embedding of Go `SaveResponse`: the INSERT assigns the next sequence
id and the current time `now` (`created_at TIMESTAMP DEFAULT
CURRENT_TIMESTAMP`), and returns the id. -/
def SaveResponse (s : SQLiteStorage) (now : Nat)
    (prompt response schemaName schemaURN datasetName : String) :
    SQLiteStorage × Int :=
  (⟨s.rows ++
      [⟨s.nextId, prompt, response, schemaName, schemaURN, datasetName,
        now⟩],
    s.nextId + 1⟩, s.nextId)

/-- The row-to-struct scan shared by Go `GetResponse` and
`ListResponses`: every column is copied into the struct except
`created_at`, which the Go code scans into a local variable that is never
assigned to `resp.CreatedAt` — the struct keeps the zero value. -/
def scanRow (r : Row) : Response :=
  ⟨r.id, r.prompt, r.response, r.schemaName, r.schemaURN, 0,
    r.datasetName⟩

/-- Embedding of Go `GetResponse`: `SELECT ... WHERE id = ?`; no
matching row yields the not-found error. -/
def GetResponse (s : SQLiteStorage) (id : Int) : Except String Response :=
  match s.rows.find? (fun r => r.id == id) with
  | none => .error ("no response found with ID " ++ toString id)
  | some r => .ok (scanRow r)

/-- The descending comparison of `ORDER BY created_at DESC`. -/
def rowLe (a b : Row) : Prop := b.createdAt ≤ a.createdAt

instance : DecidableRel rowLe := fun a b => Nat.decLe b.createdAt a.createdAt

instance : IsTotal Row rowLe :=
  ⟨fun a b => Nat.le_total b.createdAt a.createdAt⟩

instance : IsTrans Row rowLe :=
  ⟨fun _ _ _ hab hbc => Nat.le_trans hbc hab⟩

/-- The table rows as ordered by `ORDER BY created_at DESC` (stable
descending sort on the creation time). -/
def sortedRows (s : SQLiteStorage) : List Row :=
  List.insertionSort rowLe s.rows

/-- The row window selected by `ORDER BY created_at DESC LIMIT ?
OFFSET ?`.  Per SQLite, a negative LIMIT means no limit and a negative
OFFSET means none. -/
def listWindow (s : SQLiteStorage) (limit offset : Int) : List Row :=
  if limit < 0 then (sortedRows s).drop offset.toNat
  else ((sortedRows s).drop offset.toNat).take limit.toNat

/-- Embedding of Go `ListResponses`: scans each row of the query window
into a struct; the returned structs carry the same `created_at` scan
omission as `GetResponse`. -/
def ListResponses (s : SQLiteStorage) (limit offset : Int) :
    List Response :=
  (listWindow s limit offset).map scanRow

/-- Embedding of Go `DeleteResponse`: `DELETE FROM responses WHERE
id = ?`; the sequence value is untouched. -/
def DeleteResponse (s : SQLiteStorage) (id : Int) : SQLiteStorage :=
  ⟨s.rows.filter (fun r => !(r.id == id)), s.nextId⟩

/-- Embedding of Go `ClearHistory`: `DELETE FROM responses`; the
AUTOINCREMENT sequence survives. -/
def ClearHistory (s : SQLiteStorage) : SQLiteStorage :=
  ⟨[], s.nextId⟩

lemma WF_new : WF NewSQLiteStorage := by
  intro r hr
  simp [NewSQLiteStorage] at hr

lemma WF_save (s : SQLiteStorage) (now : Nat) (p r sn su dn : String)
    (h : WF s) : WF (SaveResponse s now p r sn su dn).1 := by
  intro row hrow
  simp only [SaveResponse, List.mem_append, List.mem_singleton] at hrow ⊢
  rcases hrow with hrow | hrow
  · have := h row hrow
    omega
  · subst hrow
    simp

lemma WF_delete (s : SQLiteStorage) (id : Int) (h : WF s) :
    WF (DeleteResponse s id) := by
  intro row hrow
  exact h row (List.mem_of_mem_filter hrow)

lemma WF_clear (s : SQLiteStorage) : WF (ClearHistory s) := by
  intro row hrow
  simp [ClearHistory] at hrow

lemma find?_append_of_forall_false {α : Type} (p : α → Bool)
    (l₁ l₂ : List α) (h : ∀ x ∈ l₁, p x = false) :
    (l₁ ++ l₂).find? p = l₂.find? p := by
  induction l₁ with
  | nil => simp
  | cons a l ih =>
    have ha : p a = false := h a (by simp)
    simp only [List.cons_append, List.find?, ha]
    exact ih (fun x hx => h x (by simp [hx]))

/-- **C5.** After any insert into a well-formed store, reading back the
returned id yields an entry whose prompt, response, schema name, URN and
dataset name equal the inputs, and the returned id differs from the id
of every row present before the insert. -/
theorem C5_save_get_roundtrip (s : SQLiteStorage) (now : Nat)
    (p r sn su dn : String) (hwf : WF s) :
    (∃ entry,
      GetResponse (SaveResponse s now p r sn su dn).1
          (SaveResponse s now p r sn su dn).2 = .ok entry ∧
      entry.prompt = p ∧ entry.response = r ∧ entry.schemaName = sn ∧
      entry.schemaURN = su ∧ entry.datasetName = dn) ∧
    (∀ row ∈ s.rows, row.id ≠ (SaveResponse s now p r sn su dn).2) := by
  have hnone : ∀ x ∈ s.rows, (fun row => row.id == s.nextId) x = false := by
    intro x hx
    have := hwf x hx
    simp only [beq_eq_false_iff_ne, ne_eq]
    omega
  constructor
  · refine ⟨scanRow ⟨s.nextId, p, r, sn, su, dn, now⟩, ?_, by simp [scanRow],
      by simp [scanRow], by simp [scanRow], by simp [scanRow],
      by simp [scanRow]⟩
    simp only [GetResponse, SaveResponse,
      find?_append_of_forall_false _ _ _ hnone, List.find?]
    simp
  · intro row hrow
    have := hwf row hrow
    simp only [SaveResponse]
    omega

/-- Witness for C5: inserting into the fresh store. -/
theorem C5_save_get_roundtrip_witness :
    WF NewSQLiteStorage ∧
    ((∃ entry,
      GetResponse (SaveResponse NewSQLiteStorage 7 "p" "r" "sn" "su"
            "dn").1
          (SaveResponse NewSQLiteStorage 7 "p" "r" "sn" "su" "dn").2 =
        .ok entry ∧
      entry.prompt = "p" ∧ entry.response = "r" ∧
      entry.schemaName = "sn" ∧ entry.schemaURN = "su" ∧
      entry.datasetName = "dn") ∧
    (∀ row ∈ NewSQLiteStorage.rows,
      row.id ≠ (SaveResponse NewSQLiteStorage 7 "p" "r" "sn" "su"
        "dn").2)) :=
  ⟨WF_new,
    C5_save_get_roundtrip NewSQLiteStorage 7 "p" "r" "sn" "su" "dn" WF_new⟩

end storage

namespace storage

lemma sortedRows_length (s : SQLiteStorage) :
    (sortedRows s).length = s.rows.length :=
  List.length_insertionSort rowLe s.rows

lemma take_add_append {α : Type} : ∀ (n m : Nat) (l : List α),
    l.take (n + m) = l.take n ++ (l.drop n).take m
  | 0, m, l => by simp
  | n + 1, m, [] => by simp
  | n + 1, m, a :: l => by
    have h : n + 1 + m = (n + m) + 1 := by omega
    rw [h]
    simp only [List.take_succ_cons, List.drop_succ_cons, List.cons_append]
    rw [take_add_append n m l]

lemma flatten_chunks {α : Type} : ∀ (m k : Nat) (l : List α),
    ((List.range m).map (fun i => (l.drop (k * i)).take k)).flatten =
      l.take (k * m)
  | 0, _, l => by simp
  | m + 1, k, l => by
    rw [List.range_succ_eq_map]
    simp only [List.map_cons, List.map_map, List.flatten_cons,
      Nat.mul_zero, List.drop_zero]
    have hcomp : ((fun i => (l.drop (k * i)).take k) ∘ (· + 1)) =
        (fun i => ((l.drop k).drop (k * i)).take k) := by
      funext i
      simp only [Function.comp_apply]
      rw [List.drop_drop]
      have h : k * (i + 1) = k + k * i := by ring
      rw [h]
    rw [hcomp, flatten_chunks m k (l.drop k)]
    have h : k * (m + 1) = k + k * m := by ring
    rw [h, take_add_append]

/-- **C6.** For a nonnegative limit and offset, `ListResponses` returns
at most `limit` entries; the result is the `offset`-skipped,
`limit`-bounded window of the rows sorted by creation time descending; a
range past the end yields the empty list; the sorted order is
non-increasing in creation time; and partitioning the full set into
`limit`-sized pages by offset reproduces the single unbounded listing
exactly (no duplicate, no missing entries). -/
theorem C6_list_window (s : SQLiteStorage) (limit offset : Int)
    (hl : 0 ≤ limit) (ho : 0 ≤ offset) :
    (ListResponses s limit offset).length ≤ limit.toNat ∧
    ListResponses s limit offset =
      (((sortedRows s).drop offset.toNat).take limit.toNat).map scanRow ∧
    ((s.rows.length : Int) ≤ offset → ListResponses s limit offset = []) ∧
    (sortedRows s).Pairwise rowLe ∧
    (∀ k m : Nat, s.rows.length ≤ k * m →
      ((List.range m).map
        (fun i => ListResponses s (k : Int) ((k * i : Nat) : Int))).flatten =
        ListResponses s (s.rows.length : Int) 0) := by
  have hnotlt : ¬ limit < 0 := not_lt.mpr hl
  refine ⟨?_, ?_, ?_, ?_, ?_⟩
  · simp only [ListResponses, listWindow, hnotlt, if_false,
      List.length_map, List.length_take]
    omega
  · simp [ListResponses, listWindow, hnotlt]
  · intro h
    have hlen : (sortedRows s).length ≤ offset.toNat := by
      rw [sortedRows_length]
      omega
    simp [ListResponses, listWindow, hnotlt, List.drop_eq_nil_of_le hlen]
  · exact List.sorted_insertionSort rowLe s.rows
  · intro k m hkm
    have hpage : ∀ i : Nat,
        ListResponses s (k : Int) ((k * i : Nat) : Int) =
          (((sortedRows s).drop (k * i)).take k).map scanRow := by
      intro i
      have hknn : ¬ ((k : Int) < 0) := not_lt.mpr (Int.natCast_nonneg k)
      simp only [ListResponses, listWindow, hknn, if_false,
        Int.toNat_natCast]
    simp only [hpage]
    have hmm : (List.range m).map
        (fun i => (((sortedRows s).drop (k * i)).take k).map scanRow) =
        ((List.range m).map
          (fun i => ((sortedRows s).drop (k * i)).take k)).map
            (List.map scanRow) := by
      rw [List.map_map]
      rfl
    rw [hmm, ← List.map_flatten, flatten_chunks m k (sortedRows s)]
    have htake : (sortedRows s).take (k * m) = sortedRows s := by
      apply List.take_of_length_le
      rw [sortedRows_length]
      exact hkm
    have hnn : ¬ ((s.rows.length : Int) < 0) :=
      not_lt.mpr (Int.natCast_nonneg _)
    have htake2 :
        (sortedRows s).take ((s.rows.length : Int)).toNat = sortedRows s := by
      apply List.take_of_length_le
      rw [sortedRows_length, Int.toNat_natCast]
    rw [htake]
    simp only [ListResponses, listWindow, hnn, if_false, Int.toNat_zero,
      List.drop_zero, htake2]

/-- Witness for C6 on a two-row store with limit 1, offset 1. -/
theorem C6_list_window_witness :
    (0 : Int) ≤ 1 ∧ (0 : Int) ≤ 1 ∧
    ((ListResponses ⟨[⟨1, "a", "b", "c", "d", "e", 10⟩,
        ⟨2, "f", "g", "h", "i", "j", 20⟩], 3⟩ 1 1).length ≤
          (1 : Int).toNat ∧
    ListResponses ⟨[⟨1, "a", "b", "c", "d", "e", 10⟩,
        ⟨2, "f", "g", "h", "i", "j", 20⟩], 3⟩ 1 1 =
      (((sortedRows ⟨[⟨1, "a", "b", "c", "d", "e", 10⟩,
        ⟨2, "f", "g", "h", "i", "j", 20⟩], 3⟩).drop
          (1 : Int).toNat).take (1 : Int).toNat).map scanRow ∧
    (((SQLiteStorage.mk [⟨1, "a", "b", "c", "d", "e", 10⟩,
        ⟨2, "f", "g", "h", "i", "j", 20⟩] 3).rows.length : Int) ≤ 1 →
      ListResponses ⟨[⟨1, "a", "b", "c", "d", "e", 10⟩,
        ⟨2, "f", "g", "h", "i", "j", 20⟩], 3⟩ 1 1 = []) ∧
    (sortedRows ⟨[⟨1, "a", "b", "c", "d", "e", 10⟩,
        ⟨2, "f", "g", "h", "i", "j", 20⟩], 3⟩).Pairwise rowLe ∧
    (∀ k m : Nat,
      (SQLiteStorage.mk [⟨1, "a", "b", "c", "d", "e", 10⟩,
        ⟨2, "f", "g", "h", "i", "j", 20⟩] 3).rows.length ≤ k * m →
      ((List.range m).map
        (fun i => ListResponses ⟨[⟨1, "a", "b", "c", "d", "e", 10⟩,
          ⟨2, "f", "g", "h", "i", "j", 20⟩], 3⟩ (k : Int)
            ((k * i : Nat) : Int))).flatten =
        ListResponses ⟨[⟨1, "a", "b", "c", "d", "e", 10⟩,
          ⟨2, "f", "g", "h", "i", "j", 20⟩], 3⟩
          (((SQLiteStorage.mk [⟨1, "a", "b", "c", "d", "e", 10⟩,
            ⟨2, "f", "g", "h", "i", "j", 20⟩] 3).rows.length : Int)) 0)) :=
  ⟨by decide, by decide,
    C6_list_window ⟨[⟨1, "a", "b", "c", "d", "e", 10⟩,
      ⟨2, "f", "g", "h", "i", "j", 20⟩], 3⟩ 1 1 (by decide) (by decide)⟩

/-- **C7.** `GetResponse` fails with the not-found error whenever no row
has the requested id; in particular it fails on any id right after
`DeleteResponse` of that id; and after `ClearHistory` every listing is
empty. -/
theorem C7_notfound_delete_clear (s : SQLiteStorage) (id : Int) :
    ((∀ row ∈ s.rows, row.id ≠ id) →
      GetResponse s id =
        .error ("no response found with ID " ++ toString id)) ∧
    GetResponse (DeleteResponse s id) id =
      .error ("no response found with ID " ++ toString id) ∧
    (∀ limit offset : Int,
      ListResponses (ClearHistory s) limit offset = []) := by
  refine ⟨?_, ?_, ?_⟩
  · intro h
    have hfind : s.rows.find? (fun r => r.id == id) = none := by
      rw [List.find?_eq_none]
      intro x hx
      simpa using h x hx
    simp [GetResponse, hfind]
  · have hfind : (DeleteResponse s id).rows.find?
        (fun r => r.id == id) = none := by
      rw [List.find?_eq_none]
      intro x hx
      simp only [DeleteResponse, List.mem_filter] at hx
      simpa using hx.2
    simp [GetResponse, hfind]
  · intro limit offset
    simp [ListResponses, listWindow, ClearHistory, sortedRows,
      List.insertionSort]

/-- Witness for C7 on a one-row store: id 5 is absent, id 1 is deleted,
then the history is cleared. -/
theorem C7_notfound_delete_clear_witness :
    GetResponse ⟨[⟨1, "a", "b", "c", "d", "e", 10⟩], 2⟩ 5 =
      .error ("no response found with ID " ++ toString (5 : Int)) ∧
    GetResponse (DeleteResponse ⟨[⟨1, "a", "b", "c", "d", "e", 10⟩], 2⟩ 1)
        1 =
      .error ("no response found with ID " ++ toString (1 : Int)) ∧
    ListResponses (ClearHistory ⟨[⟨1, "a", "b", "c", "d", "e", 10⟩], 2⟩)
        3 0 = [] :=
  ⟨(C7_notfound_delete_clear ⟨[⟨1, "a", "b", "c", "d", "e", 10⟩], 2⟩ 5).1
      (by decide),
    (C7_notfound_delete_clear ⟨[⟨1, "a", "b", "c", "d", "e", 10⟩], 2⟩
      1).2.1,
    (C7_notfound_delete_clear ⟨[⟨1, "a", "b", "c", "d", "e", 10⟩], 2⟩
      1).2.2 3 0⟩

/-- **C8** (code bug, exhibited): the store assigns creation time 5 to
the inserted row, yet both `GetResponse` and `ListResponses` return the
entry with the zero timestamp — the Go code scans `created_at` into a
local variable it never copies into the returned struct. -/
theorem C8_created_at_dropped :
    (SaveResponse NewSQLiteStorage 5 "p" "r" "sn" "su" "dn").1.rows.map
        Row.createdAt = [5] ∧
    GetResponse (SaveResponse NewSQLiteStorage 5 "p" "r" "sn" "su" "dn").1
        (SaveResponse NewSQLiteStorage 5 "p" "r" "sn" "su" "dn").2 =
      .ok ⟨1, "p", "r", "sn", "su", 0, "dn"⟩ ∧
    (ListResponses
        (SaveResponse NewSQLiteStorage 5 "p" "r" "sn" "su" "dn").1 1
          0).map Response.createdAt = [0] :=
  ⟨rfl, rfl, rfl⟩

end storage

namespace datahub

/-!
## Dataset entity schema (dataset.go) and its JSON round-trip

A JSON tree type stands in for the wire text; Go `encoding/json` marshal
and unmarshal of the `Dataset` struct tree are embedded as `toJson` /
`fromJson` per struct, field for field and tag for tag.  Decoding
follows Go semantics: a missing or null key leaves the zero value;
pointer fields (`Option`) are omitted on encode when nil and decode to
`none` from a missing or null key.  Note Go's `omitempty` on the struct
field `editableSchemaMetadata` has no effect (structs are never empty),
so that key is always encoded.
-/

/-- JSON values (numbers restricted to integers, which is all this
schema uses). -/
inductive Json : Type
  | null : Json
  | bool (b : Bool) : Json
  | num (n : Int) : Json
  | str (s : String) : Json
  | arr (xs : List Json) : Json
  | obj (fields : List (String × Json)) : Json

/-- Go decode of an object field into a value type: a missing key or a
non-object stands in as `null` (which decodes to the zero value). -/
def Json.get (j : Json) (key : String) : Json :=
  match j with
  | .obj fields =>
    match fields.lookup key with
    | some v => v
    | none => .null
  | _ => .null

/-- Go decode of an object field into a pointer type: `none` when the
key is missing or its value is `null`. -/
def Json.getOpt (j : Json) (key : String) : Option Json :=
  match j with
  | .obj fields =>
    match fields.lookup key with
    | some .null => none
    | some v => some v
    | none => none
  | _ => none

/-- Go decode into `string`: zero value on any other shape. -/
def Json.asStr : Json → String
  | .str s => s
  | _ => ""

/-- Go decode into an integer: zero value on any other shape. -/
def Json.asInt : Json → Int
  | .num n => n
  | _ => 0

/-- Go decode into `bool`: zero value on any other shape. -/
def Json.asBool : Json → Bool
  | .bool b => b
  | _ => false

/-- Go decode into a slice: nil (empty) on any other shape. -/
def Json.asArr : Json → List Json
  | .arr xs => xs
  | _ => []

structure MySqlDDL where
  tableSchema : String
deriving DecidableEq

structure PlatformSchema where
  mySqlDDL : MySqlDDL
deriving DecidableEq

/-- Go `FieldType`: a tag is `some ()` when the `*struct{}` pointer is
non-nil. -/
structure FieldType where
  stringType : Option Unit
  numberType : Option Unit
deriving DecidableEq

structure FieldTypeContainer where
  type : FieldType
deriving DecidableEq

structure AuditStamp where
  time : Int
  actor : String
deriving DecidableEq

structure TermAssociation where
  urn : String
deriving DecidableEq

structure FieldGlossaryTermsContainer where
  terms : List TermAssociation
  auditStamp : AuditStamp
deriving DecidableEq

structure SchemaField where
  fieldPath : String
  description : String
  type : FieldTypeContainer
  nativeDataType : String
  recursive : Bool
  glossaryTerms : Option FieldGlossaryTermsContainer
deriving DecidableEq

structure SchemaMetadata where
  schemaName : String
  platform : String
  version : Int
  hash : String
  platformSchema : PlatformSchema
  fields : List SchemaField
deriving DecidableEq

structure SchemaMetadataContainer where
  value : SchemaMetadata
deriving DecidableEq

structure DatasetKey where
  platform : String
  name : String
  origin : String
deriving DecidableEq

structure DatasetKeyContainer where
  value : DatasetKey
deriving DecidableEq

structure TagAssociation where
  tag : String
deriving DecidableEq

structure GlobalTags where
  tags : List TagAssociation
deriving DecidableEq

structure GlobalTagsContainer where
  value : GlobalTags
deriving DecidableEq

structure GlossaryTerms where
  terms : List TermAssociation
  auditStamp : AuditStamp
deriving DecidableEq

structure GlossaryTermsContainer where
  value : GlossaryTerms
deriving DecidableEq

structure EditableSchemaFieldInfo where
  fieldPath : String
  glossaryTerms : FieldGlossaryTermsContainer
deriving DecidableEq

structure EditableSchemaMetadata where
  editableSchemaFieldInfo : List EditableSchemaFieldInfo
deriving DecidableEq

structure EditableSchemaMetadataContainer where
  value : EditableSchemaMetadata
deriving DecidableEq

/-- Go `Dataset`, field for field (json tags: schemaMetadata,
datasetKey, globalTags, glossaryTerms, urn, editableSchemaMetadata). -/
structure Dataset where
  schemaMetadata : SchemaMetadataContainer
  key : DatasetKeyContainer
  globalTags : GlobalTagsContainer
  glossaryTerms : GlossaryTermsContainer
  urn : String
  editableSchemaMetadata : EditableSchemaMetadataContainer
deriving DecidableEq

def MySqlDDL.toJson (m : MySqlDDL) : Json :=
  .obj [("tableSchema", .str m.tableSchema)]

def MySqlDDL.fromJson (j : Json) : MySqlDDL :=
  ⟨(j.get "tableSchema").asStr⟩

def PlatformSchema.toJson (p : PlatformSchema) : Json :=
  .obj [("com.linkedin.schema.MySqlDDL", p.mySqlDDL.toJson)]

def PlatformSchema.fromJson (j : Json) : PlatformSchema :=
  ⟨MySqlDDL.fromJson (j.get "com.linkedin.schema.MySqlDDL")⟩

def FieldType.toJson (t : FieldType) : Json :=
  .obj
    ((match t.stringType with
      | some _ => [("com.linkedin.schema.StringType", Json.obj [])]
      | none => []) ++
     (match t.numberType with
      | some _ => [("com.linkedin.schema.NumberType", Json.obj [])]
      | none => []))

def FieldType.fromJson (j : Json) : FieldType :=
  ⟨(j.getOpt "com.linkedin.schema.StringType").map (fun _ => ()),
   (j.getOpt "com.linkedin.schema.NumberType").map (fun _ => ())⟩

def FieldTypeContainer.toJson (c : FieldTypeContainer) : Json :=
  .obj [("type", c.type.toJson)]

def FieldTypeContainer.fromJson (j : Json) : FieldTypeContainer :=
  ⟨FieldType.fromJson (j.get "type")⟩

def AuditStamp.toJson (a : AuditStamp) : Json :=
  .obj [("time", .num a.time), ("actor", .str a.actor)]

def AuditStamp.fromJson (j : Json) : AuditStamp :=
  ⟨(j.get "time").asInt, (j.get "actor").asStr⟩

def TermAssociation.toJson (t : TermAssociation) : Json :=
  .obj [("urn", .str t.urn)]

def TermAssociation.fromJson (j : Json) : TermAssociation :=
  ⟨(j.get "urn").asStr⟩

def FieldGlossaryTermsContainer.toJson
    (f : FieldGlossaryTermsContainer) : Json :=
  .obj [("terms", .arr (f.terms.map TermAssociation.toJson)),
        ("auditStamp", f.auditStamp.toJson)]

def FieldGlossaryTermsContainer.fromJson (j : Json) :
    FieldGlossaryTermsContainer :=
  ⟨((j.get "terms").asArr).map TermAssociation.fromJson,
   AuditStamp.fromJson (j.get "auditStamp")⟩

def SchemaField.toJson (f : SchemaField) : Json :=
  .obj
    ([("fieldPath", .str f.fieldPath),
      ("description", .str f.description),
      ("type", f.type.toJson),
      ("nativeDataType", .str f.nativeDataType),
      ("recursive", .bool f.recursive)] ++
     (match f.glossaryTerms with
      | some g => [("glossaryTerms", g.toJson)]
      | none => []))

def SchemaField.fromJson (j : Json) : SchemaField :=
  ⟨(j.get "fieldPath").asStr,
   (j.get "description").asStr,
   FieldTypeContainer.fromJson (j.get "type"),
   (j.get "nativeDataType").asStr,
   (j.get "recursive").asBool,
   (j.getOpt "glossaryTerms").map FieldGlossaryTermsContainer.fromJson⟩

def SchemaMetadata.toJson (m : SchemaMetadata) : Json :=
  .obj [("schemaName", .str m.schemaName),
        ("platform", .str m.platform),
        ("version", .num m.version),
        ("hash", .str m.hash),
        ("platformSchema", m.platformSchema.toJson),
        ("fields", .arr (m.fields.map SchemaField.toJson))]

def SchemaMetadata.fromJson (j : Json) : SchemaMetadata :=
  ⟨(j.get "schemaName").asStr,
   (j.get "platform").asStr,
   (j.get "version").asInt,
   (j.get "hash").asStr,
   PlatformSchema.fromJson (j.get "platformSchema"),
   ((j.get "fields").asArr).map SchemaField.fromJson⟩

def SchemaMetadataContainer.toJson (c : SchemaMetadataContainer) : Json :=
  .obj [("value", c.value.toJson)]

def SchemaMetadataContainer.fromJson (j : Json) :
    SchemaMetadataContainer :=
  ⟨SchemaMetadata.fromJson (j.get "value")⟩

def DatasetKey.toJson (k : DatasetKey) : Json :=
  .obj [("platform", .str k.platform), ("name", .str k.name),
        ("origin", .str k.origin)]

def DatasetKey.fromJson (j : Json) : DatasetKey :=
  ⟨(j.get "platform").asStr, (j.get "name").asStr,
   (j.get "origin").asStr⟩

def DatasetKeyContainer.toJson (c : DatasetKeyContainer) : Json :=
  .obj [("value", c.value.toJson)]

def DatasetKeyContainer.fromJson (j : Json) : DatasetKeyContainer :=
  ⟨DatasetKey.fromJson (j.get "value")⟩

def TagAssociation.toJson (t : TagAssociation) : Json :=
  .obj [("tag", .str t.tag)]

def TagAssociation.fromJson (j : Json) : TagAssociation :=
  ⟨(j.get "tag").asStr⟩

def GlobalTags.toJson (g : GlobalTags) : Json :=
  .obj [("tags", .arr (g.tags.map TagAssociation.toJson))]

def GlobalTags.fromJson (j : Json) : GlobalTags :=
  ⟨((j.get "tags").asArr).map TagAssociation.fromJson⟩

def GlobalTagsContainer.toJson (c : GlobalTagsContainer) : Json :=
  .obj [("value", c.value.toJson)]

def GlobalTagsContainer.fromJson (j : Json) : GlobalTagsContainer :=
  ⟨GlobalTags.fromJson (j.get "value")⟩

def GlossaryTerms.toJson (g : GlossaryTerms) : Json :=
  .obj [("terms", .arr (g.terms.map TermAssociation.toJson)),
        ("auditStamp", g.auditStamp.toJson)]

def GlossaryTerms.fromJson (j : Json) : GlossaryTerms :=
  ⟨((j.get "terms").asArr).map TermAssociation.fromJson,
   AuditStamp.fromJson (j.get "auditStamp")⟩

def GlossaryTermsContainer.toJson (c : GlossaryTermsContainer) : Json :=
  .obj [("value", c.value.toJson)]

def GlossaryTermsContainer.fromJson (j : Json) : GlossaryTermsContainer :=
  ⟨GlossaryTerms.fromJson (j.get "value")⟩

def EditableSchemaFieldInfo.toJson (e : EditableSchemaFieldInfo) : Json :=
  .obj [("fieldPath", .str e.fieldPath),
        ("glossaryTerms", e.glossaryTerms.toJson)]

def EditableSchemaFieldInfo.fromJson (j : Json) :
    EditableSchemaFieldInfo :=
  ⟨(j.get "fieldPath").asStr,
   FieldGlossaryTermsContainer.fromJson (j.get "glossaryTerms")⟩

def EditableSchemaMetadata.toJson (e : EditableSchemaMetadata) : Json :=
  .obj [("editableSchemaFieldInfo",
    .arr (e.editableSchemaFieldInfo.map EditableSchemaFieldInfo.toJson))]

def EditableSchemaMetadata.fromJson (j : Json) : EditableSchemaMetadata :=
  ⟨((j.get "editableSchemaFieldInfo").asArr).map
    EditableSchemaFieldInfo.fromJson⟩

def EditableSchemaMetadataContainer.toJson
    (c : EditableSchemaMetadataContainer) : Json :=
  .obj [("value", c.value.toJson)]

def EditableSchemaMetadataContainer.fromJson (j : Json) :
    EditableSchemaMetadataContainer :=
  ⟨EditableSchemaMetadata.fromJson (j.get "value")⟩

def Dataset.toJson (d : Dataset) : Json :=
  .obj [("schemaMetadata", d.schemaMetadata.toJson),
        ("datasetKey", d.key.toJson),
        ("globalTags", d.globalTags.toJson),
        ("glossaryTerms", d.glossaryTerms.toJson),
        ("urn", .str d.urn),
        ("editableSchemaMetadata", d.editableSchemaMetadata.toJson)]

def Dataset.fromJson (j : Json) : Dataset :=
  ⟨SchemaMetadataContainer.fromJson (j.get "schemaMetadata"),
   DatasetKeyContainer.fromJson (j.get "datasetKey"),
   GlobalTagsContainer.fromJson (j.get "globalTags"),
   GlossaryTermsContainer.fromJson (j.get "glossaryTerms"),
   (j.get "urn").asStr,
   EditableSchemaMetadataContainer.fromJson
     (j.get "editableSchemaMetadata")⟩

end datahub

namespace datahub

lemma map_roundtrip {α β : Type} (f : α → β) (g : β → α)
    (h : ∀ a, g (f a) = a) : ∀ l : List α, (l.map f).map g = l
  | [] => by simp
  | a :: l => by simp [h a, map_roundtrip f g h l]

lemma mysqlddl_roundtrip (m : MySqlDDL) : MySqlDDL.fromJson m.toJson = m := by
  cases m
  simp [MySqlDDL.toJson, MySqlDDL.fromJson, Json.get, Json.asStr,
    List.lookup]

lemma platformschema_roundtrip (p : PlatformSchema) :
    PlatformSchema.fromJson p.toJson = p := by
  cases p
  simp [PlatformSchema.toJson, PlatformSchema.fromJson, Json.get,
    List.lookup, mysqlddl_roundtrip]

lemma fieldtype_roundtrip (t : FieldType) :
    FieldType.fromJson t.toJson = t := by
  obtain ⟨st, nt⟩ := t
  cases st <;> cases nt <;>
    simp [FieldType.toJson, FieldType.fromJson, Json.getOpt, List.lookup]

lemma fieldtypecontainer_roundtrip (c : FieldTypeContainer) :
    FieldTypeContainer.fromJson c.toJson = c := by
  cases c
  simp [FieldTypeContainer.toJson, FieldTypeContainer.fromJson, Json.get,
    List.lookup, fieldtype_roundtrip]

lemma auditstamp_roundtrip (a : AuditStamp) :
    AuditStamp.fromJson a.toJson = a := by
  cases a
  simp [AuditStamp.toJson, AuditStamp.fromJson, Json.get, Json.asInt,
    Json.asStr, List.lookup]

lemma termassociation_roundtrip (t : TermAssociation) :
    TermAssociation.fromJson t.toJson = t := by
  cases t
  simp [TermAssociation.toJson, TermAssociation.fromJson, Json.get,
    Json.asStr, List.lookup]

lemma fieldglossary_roundtrip (f : FieldGlossaryTermsContainer) :
    FieldGlossaryTermsContainer.fromJson f.toJson = f := by
  cases f
  simp [FieldGlossaryTermsContainer.toJson,
    FieldGlossaryTermsContainer.fromJson, Json.get, Json.asArr,
    List.lookup, auditstamp_roundtrip,
    map_roundtrip TermAssociation.toJson TermAssociation.fromJson
      termassociation_roundtrip]

lemma fieldglossary_fromJson_obj (g : FieldGlossaryTermsContainer) :
    FieldGlossaryTermsContainer.fromJson
      (Json.obj [("terms", Json.arr (g.terms.map TermAssociation.toJson)),
                 ("auditStamp", g.auditStamp.toJson)]) = g :=
  fieldglossary_roundtrip g

lemma schemafield_roundtrip (f : SchemaField) :
    SchemaField.fromJson f.toJson = f := by
  obtain ⟨fp, ds, ty, dt, rc, gl⟩ := f
  cases gl <;>
    simp [SchemaField.toJson, SchemaField.fromJson, Json.get, Json.getOpt,
      Json.asStr, Json.asBool, List.lookup, fieldtypecontainer_roundtrip,
      FieldGlossaryTermsContainer.toJson, fieldglossary_fromJson_obj]

lemma schemametadata_roundtrip (m : SchemaMetadata) :
    SchemaMetadata.fromJson m.toJson = m := by
  cases m
  simp [SchemaMetadata.toJson, SchemaMetadata.fromJson, Json.get,
    Json.asStr, Json.asInt, Json.asArr, List.lookup,
    platformschema_roundtrip,
    map_roundtrip SchemaField.toJson SchemaField.fromJson
      schemafield_roundtrip]

lemma smcontainer_roundtrip (c : SchemaMetadataContainer) :
    SchemaMetadataContainer.fromJson c.toJson = c := by
  cases c
  simp [SchemaMetadataContainer.toJson, SchemaMetadataContainer.fromJson,
    Json.get, List.lookup, schemametadata_roundtrip]

lemma datasetkey_roundtrip (k : DatasetKey) :
    DatasetKey.fromJson k.toJson = k := by
  cases k
  simp [DatasetKey.toJson, DatasetKey.fromJson, Json.get, Json.asStr,
    List.lookup]

lemma dkcontainer_roundtrip (c : DatasetKeyContainer) :
    DatasetKeyContainer.fromJson c.toJson = c := by
  cases c
  simp [DatasetKeyContainer.toJson, DatasetKeyContainer.fromJson,
    Json.get, List.lookup, datasetkey_roundtrip]

lemma tagassociation_roundtrip (t : TagAssociation) :
    TagAssociation.fromJson t.toJson = t := by
  cases t
  simp [TagAssociation.toJson, TagAssociation.fromJson, Json.get,
    Json.asStr, List.lookup]

lemma globaltags_roundtrip (g : GlobalTags) :
    GlobalTags.fromJson g.toJson = g := by
  cases g
  simp [GlobalTags.toJson, GlobalTags.fromJson, Json.get, Json.asArr,
    List.lookup,
    map_roundtrip TagAssociation.toJson TagAssociation.fromJson
      tagassociation_roundtrip]

lemma gtcontainer_roundtrip (c : GlobalTagsContainer) :
    GlobalTagsContainer.fromJson c.toJson = c := by
  cases c
  simp [GlobalTagsContainer.toJson, GlobalTagsContainer.fromJson,
    Json.get, List.lookup, globaltags_roundtrip]

lemma glossaryterms_roundtrip (g : GlossaryTerms) :
    GlossaryTerms.fromJson g.toJson = g := by
  cases g
  simp [GlossaryTerms.toJson, GlossaryTerms.fromJson, Json.get,
    Json.asArr, List.lookup, auditstamp_roundtrip,
    map_roundtrip TermAssociation.toJson TermAssociation.fromJson
      termassociation_roundtrip]

lemma glcontainer_roundtrip (c : GlossaryTermsContainer) :
    GlossaryTermsContainer.fromJson c.toJson = c := by
  cases c
  simp [GlossaryTermsContainer.toJson, GlossaryTermsContainer.fromJson,
    Json.get, List.lookup, glossaryterms_roundtrip]

lemma esfi_roundtrip (e : EditableSchemaFieldInfo) :
    EditableSchemaFieldInfo.fromJson e.toJson = e := by
  cases e
  simp [EditableSchemaFieldInfo.toJson, EditableSchemaFieldInfo.fromJson,
    Json.get, Json.asStr, List.lookup, fieldglossary_roundtrip]

lemma esm_roundtrip (e : EditableSchemaMetadata) :
    EditableSchemaMetadata.fromJson e.toJson = e := by
  cases e
  simp [EditableSchemaMetadata.toJson, EditableSchemaMetadata.fromJson,
    Json.get, Json.asArr, List.lookup,
    map_roundtrip EditableSchemaFieldInfo.toJson
      EditableSchemaFieldInfo.fromJson esfi_roundtrip]

lemma esmcontainer_roundtrip (c : EditableSchemaMetadataContainer) :
    EditableSchemaMetadataContainer.fromJson c.toJson = c := by
  cases c
  simp [EditableSchemaMetadataContainer.toJson,
    EditableSchemaMetadataContainer.fromJson, Json.get, List.lookup,
    esm_roundtrip]

/-- **C9.** Encoding any `Dataset` to JSON and decoding it back yields
the original value (in particular equality on every non-zero field), and
decoding a JSON object with every optional field absent reconstructs
the all-zero `Dataset`. -/
theorem C9_dataset_json_roundtrip :
    (∀ d : Dataset, Dataset.fromJson d.toJson = d) ∧
    Dataset.fromJson (Json.obj []) =
      ⟨⟨⟨"", "", 0, "", ⟨⟨""⟩⟩, []⟩⟩, ⟨⟨"", "", ""⟩⟩, ⟨⟨[]⟩⟩,
        ⟨⟨[], ⟨0, ""⟩⟩⟩, "", ⟨⟨[]⟩⟩⟩ := by
  constructor
  · intro d
    cases d
    simp [Dataset.toJson, Dataset.fromJson, Json.get, Json.asStr,
      List.lookup, smcontainer_roundtrip, dkcontainer_roundtrip,
      gtcontainer_roundtrip, glcontainer_roundtrip, esmcontainer_roundtrip]
  · rfl

end datahub
